import Mathlib

/-!
Shallow embedding of the declaration-node model in include/swift/AST/Decl.h
(early Swift compiler AST). Pointers to external entities (DeclContext, Expr,
Stmt, Pattern, FuncExpr, TypeBase, Identifier text) are modelled as opaque
numeric handles; nullable pointers are Option-valued; debug assertions are
modelled as the error branch of an Except result.
-/

namespace SwiftDecl

/-- Opaque handle for a swift DeclContext pointer. -/
abbrev DeclContextRef := Nat

/-- Opaque handle for a swift Identifier (pointer to interned text). -/
abbrev Identifier := Nat

/-- Opaque handle for an Expr node. -/
abbrev ExprRef := Nat

/-- Opaque handle for a Stmt node. -/
abbrev StmtRef := Nat

/-- Opaque handle for a FuncExpr node. -/
abbrev FuncExprRef := Nat

/-- Opaque handle for a Decl node referred to by pointer (target of the Func
getter/setter tagged pointer). -/
abbrev DeclRef := Nat

/-- Opaque handle for a FuncDecl node referred to by pointer. -/
abbrev FuncDeclRef := Nat

/-- Opaque handle for a non-null TypeBase pointer. -/
abbrev TypeBaseRef := Nat

/-- Model of swift Type: a nullable smart-pointer wrapper around TypeBase.
The C++ query Ty.isNull() becomes Option.isNone. -/
abbrev TypeRef := Option TypeBaseRef

/-- Model of swift SourceLoc, a wrapper around llvm SMLoc; the location is
valid exactly when the underlying pointer is non-null. -/
structure SourceLoc where
  val : Option Nat
deriving DecidableEq

/-- Source model: SourceLoc::isValid, true when the wrapped pointer is
non-null. -/
def SourceLoc.isValid (l : SourceLoc) : Bool := l.val.isSome

/-- Model of swift SourceRange: a pair of source locations. -/
structure SourceRange where
  Start : SourceLoc
  End : SourceLoc
deriving DecidableEq

/-- Modelled from the spec: the DeclKind tag values are generated from
swift/AST/DeclNodes.def, which is not under src/. Per spec section 4.1 the
registry gives every concrete kind a unique tag and every abstract category a
contiguous inclusive [first, last] tag range, with the value-declarations
range nested inside the named-declarations range and named vs non-named kinds
disjoint. Per the class hierarchy in Decl.h, the concrete subclasses of
NamedDecl are exactly the subclasses of ValueDecl: TypeAlias, Var, Func and
OneOfElement; the remaining five concrete kinds derive Decl directly. The
nine concrete kinds are therefore numbered with the four Named/Valued kinds
contiguous at the end. -/
inductive DeclKind where
  | Import
  | Extension
  | PatternBinding
  | TopLevelCode
  | Subscript
  | TypeAlias
  | Var
  | Func
  | OneOfElement
deriving DecidableEq, Fintype

/-- Integral tag value of a kind, as laid down by the registry model above. -/
def DeclKind.tag : DeclKind → Nat
  | .Import => 0
  | .Extension => 1
  | .PatternBinding => 2
  | .TopLevelCode => 3
  | .Subscript => 4
  | .TypeAlias => 5
  | .Var => 6
  | .Func => 7
  | .OneOfElement => 8

/-- Modelled from the spec: first tag of the named-declarations range. -/
def First_NamedDecl : Nat := DeclKind.tag DeclKind.TypeAlias

/-- Modelled from the spec: last tag of the named-declarations range. -/
def Last_NamedDecl : Nat := DeclKind.tag DeclKind.OneOfElement

/-- Modelled from the spec: first tag of the value-declarations range. -/
def First_ValueDecl : Nat := DeclKind.tag DeclKind.TypeAlias

/-- Modelled from the spec: last tag of the value-declarations range. -/
def Last_ValueDecl : Nat := DeclKind.tag DeclKind.OneOfElement

/-- Ground truth of the C++ class hierarchy in Decl.h: the concrete kinds
whose node class derives NamedDecl (via ValueDecl). -/
def derivesNamedDecl : DeclKind → Bool
  | .TypeAlias => true
  | .Var => true
  | .Func => true
  | .OneOfElement => true
  | _ => false

/-- Ground truth of the C++ class hierarchy in Decl.h: the concrete kinds
whose node class derives ValueDecl. -/
def derivesValueDecl : DeclKind → Bool
  | .TypeAlias => true
  | .Var => true
  | .Func => true
  | .OneOfElement => true
  | _ => false

/-- Source model: NamedDecl::classof, a range-containment test on the kind
tag. -/
def NamedDecl.classofKind (k : DeclKind) : Bool :=
  decide (First_NamedDecl ≤ k.tag) && decide (k.tag ≤ Last_NamedDecl)

/-- Source model: ValueDecl::classof, a range-containment test on the kind
tag. -/
def ValueDecl.classofKind (k : DeclKind) : Bool :=
  decide (First_ValueDecl ≤ k.tag) && decide (k.tag ≤ Last_ValueDecl)

/-- Source model: ImportDecl::classof. -/
def ImportDecl.classofKind (k : DeclKind) : Bool := k == DeclKind.Import

/-- Source model: ExtensionDecl::classof (the Decl overload). -/
def ExtensionDecl.classofKind (k : DeclKind) : Bool := k == DeclKind.Extension

/-- Source model: PatternBindingDecl::classof. -/
def PatternBindingDecl.classofKind (k : DeclKind) : Bool :=
  k == DeclKind.PatternBinding

/-- Source model: TopLevelCodeDecl::classof (the Decl overload). -/
def TopLevelCodeDecl.classofKind (k : DeclKind) : Bool :=
  k == DeclKind.TopLevelCode

/-- Source model: SubscriptDecl::classof. -/
def SubscriptDecl.classofKind (k : DeclKind) : Bool := k == DeclKind.Subscript

/-- Source model: TypeAliasDecl::classof. -/
def TypeAliasDecl.classofKind (k : DeclKind) : Bool := k == DeclKind.TypeAlias

/-- Source model: VarDecl::classof. -/
def VarDecl.classofKind (k : DeclKind) : Bool := k == DeclKind.Var

/-- Source model: FuncDecl::classof. -/
def FuncDecl.classofKind (k : DeclKind) : Bool := k == DeclKind.Func

/-- Source model: OneOfElementDecl::classof. -/
def OneOfElementDecl.classofKind (k : DeclKind) : Bool :=
  k == DeclKind.OneOfElement

/-- Dispatch table over the nine concrete classof tests: the dynamic type
test of a node with kind k against the concrete kind c. -/
def classofConcrete (c k : DeclKind) : Bool :=
  match c with
  | .Import => ImportDecl.classofKind k
  | .Extension => ExtensionDecl.classofKind k
  | .PatternBinding => PatternBindingDecl.classofKind k
  | .TopLevelCode => TopLevelCodeDecl.classofKind k
  | .Subscript => SubscriptDecl.classofKind k
  | .TypeAlias => TypeAliasDecl.classofKind k
  | .Var => VarDecl.classofKind k
  | .Func => FuncDecl.classofKind k
  | .OneOfElement => OneOfElementDecl.classofKind k

/-- State of the ValueDecl layer: the fields of Decl (kind tag, context
back-reference), NamedDecl (name; the shared attribute pointer is omitted as
no claim touches it) and ValueDecl (the lazily resolved type and the two
usage-tracking bits). -/
structure ValueDecl where
  kind : DeclKind
  context : DeclContextRef
  name : Identifier
  Ty : TypeRef
  NeverUsedAsLValue : Bool
  HasFixedLifetime : Bool
deriving DecidableEq

/-- Source model: the protected ValueDecl constructor. It stores the kind,
context, name and the type argument as given, and clears the two bitfield
flags. -/
def mkValueDecl (K : DeclKind) (DC : DeclContextRef) (name : Identifier)
    (ty : TypeRef) : ValueDecl :=
  { kind := K, context := DC, name := name, Ty := ty,
    NeverUsedAsLValue := false, HasFixedLifetime := false }

/-- Source model: ValueDecl::hasType, which returns !Ty.isNull(). -/
def ValueDecl.hasType (d : ValueDecl) : Bool := !d.Ty.isNone

/-- Source model: ValueDecl::getType. The debug assertion (fires when the
type is null) is the error branch. -/
def ValueDecl.getType (d : ValueDecl) : Except String TypeBaseRef :=
  match d.Ty with
  | some t => Except.ok t
  | none => Except.error "declaration has no type set yet"

/-- Source model: ValueDecl::setType, the checked set-once mutator. The
debug assertion (fires when the type is already set) is the error branch. -/
def ValueDecl.setType (d : ValueDecl) (T : TypeRef) : Except String ValueDecl :=
  if d.Ty.isNone then Except.ok { d with Ty := T }
  else Except.error "changing type of declaration"

/-- Source model: ValueDecl::overwriteType, the unchecked overwrite. -/
def ValueDecl.overwriteType (d : ValueDecl) (T : TypeRef) : ValueDecl :=
  { d with Ty := T }

/-- Source model: ValueDecl::setHasFixedLifetime. -/
def ValueDecl.setHasFixedLifetime (d : ValueDecl) (flag : Bool) : ValueDecl :=
  { d with HasFixedLifetime := flag }

/-- Source model: ValueDecl::setNeverUsedAsLValue. -/
def ValueDecl.setNeverUsedAsLValue (d : ValueDecl) (flag : Bool) : ValueDecl :=
  { d with NeverUsedAsLValue := flag }

/-- Source model: Decl::setDeclContext, restricted to the ValueDecl layer
state. -/
def ValueDecl.setDeclContext (d : ValueDecl) (DC : DeclContextRef) : ValueDecl :=
  { d with context := DC }

/-- Source model: ValueDecl::isReferencedAsLValue, computed from the kind
tag. -/
def ValueDecl.isReferencedAsLValue (d : ValueDecl) : Bool :=
  d.kind == DeclKind.Var

/-- Source model: the VarDecl auxiliary GetSetRecord holding the brace range
and the user-defined getter and setter (both nullable FuncDecl pointers). -/
structure GetSetRecord where
  Braces : SourceRange
  Get : Option FuncDeclRef
  Set : Option FuncDeclRef
deriving DecidableEq

/-- State of a VarDecl: the ValueDecl layer plus the var-keyword location
and the optional property record (a nullable pointer in the source). -/
structure VarDecl extends ValueDecl where
  VarLoc : SourceLoc
  GetSet : Option GetSetRecord
deriving DecidableEq

/-- Source model: the VarDecl constructor; it passes kind Var, the context,
name and type to the ValueDecl constructor and null-initializes GetSet. -/
def mkVarDecl (VarLoc : SourceLoc) (Name : Identifier) (T : TypeRef)
    (DC : DeclContextRef) : VarDecl :=
  { toValueDecl := mkValueDecl DeclKind.Var DC Name T,
    VarLoc := VarLoc, GetSet := none }

/-- Source model: VarDecl::isProperty, true when the record pointer is
non-null. -/
def VarDecl.isProperty (v : VarDecl) : Bool := v.GetSet.isSome

/-- Source model: VarDecl::getGetter, which reads GetSet->Get when the
record is present and returns null otherwise. -/
def VarDecl.getGetter (v : VarDecl) : Option FuncDeclRef :=
  match v.GetSet with
  | some r => r.Get
  | none => none

/-- Source model: VarDecl::getSetter, which reads GetSet->Set when the
record is present and returns null otherwise. -/
def VarDecl.getSetter (v : VarDecl) : Option FuncDeclRef :=
  match v.GetSet with
  | some r => r.Set
  | none => none

/-- Modelled from the spec: VarDecl::setProperty is declared in Decl.h but
defined in Decl.cpp, which is not under src/. Per the spec it is the
property-installation operation that simultaneously installs a property
record (getter, setter) and its brace range; the ASTContext argument only
supplies the arena for the record allocation. -/
def VarDecl.setProperty (v : VarDecl) (Ctx : Nat) (LBraceLoc : SourceLoc)
    (Get : Option FuncDeclRef) (Set : Option FuncDeclRef)
    (RBraceLoc : SourceLoc) : VarDecl :=
  { v with GetSet := some { Braces := { Start := LBraceLoc, End := RBraceLoc },
                            Get := Get, Set := Set } }

/-- The mutating operations available on a VarDecl after construction, per
Decl.h: the property installation, the type mutators and flag setters of the
ValueDecl layer, and the context mutator of the Decl base. -/
inductive VarOp where
  | setProperty (Ctx : Nat) (LBraceLoc : SourceLoc)
      (Get : Option FuncDeclRef) (Set : Option FuncDeclRef)
      (RBraceLoc : SourceLoc)
  | setType (T : TypeRef)
  | overwriteType (T : TypeRef)
  | setHasFixedLifetime (flag : Bool)
  | setNeverUsedAsLValue (flag : Bool)
  | setDeclContext (DC : DeclContextRef)

/-- Application of one VarDecl operation; a failing checked setType leaves
the state unchanged (the assertion aborts before any write). -/
def VarDecl.applyOp (v : VarDecl) : VarOp → VarDecl
  | VarOp.setProperty Ctx lb g s rb => v.setProperty Ctx lb g s rb
  | VarOp.setType T =>
      match v.toValueDecl.setType T with
      | Except.ok d => { v with toValueDecl := d }
      | Except.error _ => v
  | VarOp.overwriteType T => { v with toValueDecl := v.toValueDecl.overwriteType T }
  | VarOp.setHasFixedLifetime b => { v with toValueDecl := v.toValueDecl.setHasFixedLifetime b }
  | VarOp.setNeverUsedAsLValue b => { v with toValueDecl := v.toValueDecl.setNeverUsedAsLValue b }
  | VarOp.setDeclContext DC => { v with toValueDecl := v.toValueDecl.setDeclContext DC }

/-- Application of a sequence of VarDecl operations, oldest first. -/
def VarDecl.applyOps (v : VarDecl) : List VarOp → VarDecl
  | [] => v
  | op :: rest => VarDecl.applyOps (v.applyOp op) rest

/-- Model of llvm PointerIntPair of a Decl pointer and one bool bit, the type
of the FuncDecl GetOrSetDecl field; its default constructor zero-initializes
the packed word, giving a null pointer and a false bit. -/
structure PointerIntPair where
  pointer : Option DeclRef
  int : Bool
deriving DecidableEq

/-- State of a FuncDecl: the ValueDecl layer plus the static and func keyword
locations, the body pointer, and the getter/setter tagged pointer. -/
structure FuncDecl extends ValueDecl where
  StaticLoc : SourceLoc
  FuncLoc : SourceLoc
  Body : Option FuncExprRef
  GetOrSetDecl : PointerIntPair
deriving DecidableEq

/-- Source model: the FuncDecl constructor; it passes kind Func, the context,
name and type to the ValueDecl constructor, stores the locations and body,
and leaves GetOrSetDecl default-constructed (null pointer, false bit). -/
def mkFuncDecl (StaticLoc FuncLoc : SourceLoc) (Name : Identifier)
    (T : TypeRef) (Body : Option FuncExprRef) (DC : DeclContextRef) : FuncDecl :=
  { toValueDecl := mkValueDecl DeclKind.Func DC Name T,
    StaticLoc := StaticLoc, FuncLoc := FuncLoc, Body := Body,
    GetOrSetDecl := { pointer := none, int := false } }

/-- Source model: FuncDecl::isStatic. -/
def FuncDecl.isStatic (f : FuncDecl) : Bool := f.StaticLoc.isValid

/-- Source model: FuncDecl::getLocStart, the ternary on the validity of the
static-keyword location. -/
def FuncDecl.getLocStart (f : FuncDecl) : SourceLoc :=
  cond f.StaticLoc.isValid f.StaticLoc f.FuncLoc

/-- Source model: FuncDecl::makeGetter, which stores the target pointer and
clears the discriminant bit. -/
def FuncDecl.makeGetter (f : FuncDecl) (D : Option DeclRef) : FuncDecl :=
  { f with GetOrSetDecl := { pointer := D, int := false } }

/-- Source model: FuncDecl::makeSetter, which stores the target pointer and
sets the discriminant bit. -/
def FuncDecl.makeSetter (f : FuncDecl) (D : Option DeclRef) : FuncDecl :=
  { f with GetOrSetDecl := { pointer := D, int := true } }

/-- Source model: FuncDecl::getGetterDecl, the ternary on the discriminant
bit returning null when the bit marks a setter. -/
def FuncDecl.getGetterDecl (f : FuncDecl) : Option DeclRef :=
  cond f.GetOrSetDecl.int none f.GetOrSetDecl.pointer

/-- Source model: FuncDecl::getSetterDecl, the ternary on the discriminant
bit returning null when the bit marks a getter. -/
def FuncDecl.getSetterDecl (f : FuncDecl) : Option DeclRef :=
  cond f.GetOrSetDecl.int f.GetOrSetDecl.pointer none

/-- Source model: the ImportDecl access-path element, a pair of an identifier
and its source location. -/
abbrev AccessPathElement := Identifier × SourceLoc

/-- State of an ImportDecl: the Decl base context, the import-keyword
location, the stored element count, and the trailing buffer of path elements
(fused into the same allocation in the source; modelled as a list). -/
structure ImportDecl where
  context : DeclContextRef
  ImportLoc : SourceLoc
  NumPathElements : Nat
  pathBuffer : List AccessPathElement
deriving DecidableEq

/-- Modelled from the spec: ImportDecl::create is declared in Decl.h but
defined in Decl.cpp, which is not under src/. Per the spec, construction
computes the combined size from the path length, allocates node and trailing
array as one block in the ASTContext arena, copies the path elements into
place and stores the length; the array length is fixed at construction. -/
def ImportDecl.create (C : Nat) (DC : DeclContextRef) (ImportLoc : SourceLoc)
    (Path : List AccessPathElement) : ImportDecl :=
  { context := DC, ImportLoc := ImportLoc,
    NumPathElements := Path.length, pathBuffer := Path }

/-- Source model: ImportDecl::getAccessPath, which rebuilds the ArrayRef view
from the trailing buffer and the stored element count. -/
def ImportDecl.getAccessPath (d : ImportDecl) : List AccessPathElement :=
  d.pathBuffer.take d.NumPathElements

/-- Source model: Decl::setDeclContext on an ImportDecl, the only mutator
reachable on an ImportDecl in Decl.h. -/
def ImportDecl.setDeclContext (d : ImportDecl) (DC : DeclContextRef) : ImportDecl :=
  { d with context := DC }

/-- Source model: ImportDecl::getLocStart. -/
def ImportDecl.getLocStart (d : ImportDecl) : SourceLoc := d.ImportLoc

/-- Model of llvm PointerUnion of Expr and Stmt, the TopLevelCodeDecl body
slot; default-constructed null, otherwise holding exactly one alternative. -/
inductive ExprOrStmt where
  | null
  | expr (E : ExprRef)
  | stmt (S : StmtRef)
deriving DecidableEq

/-- True when the union holds the expression alternative. -/
def ExprOrStmt.isExpr : ExprOrStmt → Bool
  | .expr _ => true
  | _ => false

/-- True when the union holds the statement alternative. -/
def ExprOrStmt.isStmt : ExprOrStmt → Bool
  | .stmt _ => true
  | _ => false

/-- State of a TopLevelCodeDecl: the Decl base context and the body union
(the DeclContext base adds nothing a claim touches). -/
structure TopLevelCodeDecl where
  context : DeclContextRef
  Body : ExprOrStmt
deriving DecidableEq

/-- Source model: the TopLevelCodeDecl constructor; the body union is
default-constructed empty. -/
def mkTopLevelCodeDecl (Parent : DeclContextRef) : TopLevelCodeDecl :=
  { context := Parent, Body := ExprOrStmt.null }

/-- Source model: TopLevelCodeDecl::getBody. -/
def TopLevelCodeDecl.getBody (t : TopLevelCodeDecl) : ExprOrStmt := t.Body

/-- Source model: the Expr overload of TopLevelCodeDecl::setBody. -/
def TopLevelCodeDecl.setBodyExpr (t : TopLevelCodeDecl) (E : ExprRef) : TopLevelCodeDecl :=
  { t with Body := ExprOrStmt.expr E }

/-- Source model: the Stmt overload of TopLevelCodeDecl::setBody. -/
def TopLevelCodeDecl.setBodyStmt (t : TopLevelCodeDecl) (S : StmtRef) : TopLevelCodeDecl :=
  { t with Body := ExprOrStmt.stmt S }

/-! Theorems settling the claims. -/

/-- Preservation lemma: no VarDecl operation removes an installed property
record. -/
theorem VarDecl.isProperty_applyOp (v : VarDecl) (op : VarOp)
    (h : v.isProperty = true) : (v.applyOp op).isProperty = true := by
  cases op with
  | setProperty Ctx lb g s rb => rfl
  | setType T =>
      unfold VarDecl.applyOp
      cases h2 : v.toValueDecl.setType T <;>
        simp_all [VarDecl.isProperty]
  | overwriteType T => exact h
  | setHasFixedLifetime b => exact h
  | setNeverUsedAsLValue b => exact h
  | setDeclContext DC => exact h

/-- Preservation lemma, lifted to operation sequences. -/
theorem VarDecl.isProperty_applyOps (v : VarDecl) (ops : List VarOp)
    (h : v.isProperty = true) : (v.applyOps ops).isProperty = true := by
  induction ops generalizing v with
  | nil => exact h
  | cons op rest ih => exact ih (v.applyOp op) (v.isProperty_applyOp op h)

/-- Claim C1: after makeGetter(D) the function reports D as the declaration
it gets and no setter target; after a subsequent makeSetter(D2) it reports D2
as the declaration it sets and no getter target; and in every state at most
one of getGetterDecl and getSetterDecl is non-null, because the single
discriminant bit selects which one the shared pointer feeds. -/
theorem funcDecl_getter_setter_exclusive (f : FuncDecl) (D D2 : DeclRef) :
    (f.makeGetter (some D)).getGetterDecl = some D ∧
    (f.makeGetter (some D)).getSetterDecl = none ∧
    ((f.makeGetter (some D)).makeSetter (some D2)).getSetterDecl = some D2 ∧
    ((f.makeGetter (some D)).makeSetter (some D2)).getGetterDecl = none ∧
    (∀ g : FuncDecl, g.getGetterDecl = none ∨ g.getSetterDecl = none) := by
  refine ⟨rfl, rfl, rfl, rfl, ?_⟩
  intro g
  cases h : g.GetOrSetDecl.int with
  | false => right; simp [FuncDecl.getSetterDecl, h]
  | true => left; simp [FuncDecl.getGetterDecl, h]

/-- Claim C2: on a ValueDecl whose type slot is set, the checked setType
fails its assertion, so a second setType after a successful one fails;
overwriteType is total and getType afterwards returns exactly the
overwritten type; and when hasType holds, getType cannot reach its assertion
branch. -/
theorem valueDecl_setType_contract (d : ValueDecl) (T T2 : TypeBaseRef) :
    (d.hasType = true →
      ∀ U : TypeRef, d.setType U = Except.error "changing type of declaration") ∧
    (∀ d2 : ValueDecl, d.setType (some T) = Except.ok d2 →
      d2.setType (some T2) = Except.error "changing type of declaration") ∧
    ((d.overwriteType (some T)).hasType = true ∧
      (d.overwriteType (some T)).getType = Except.ok T) ∧
    (d.hasType = true → ∃ t, d.getType = Except.ok t) := by
  refine ⟨?_, ?_, ⟨?_, ?_⟩, ?_⟩
  · intro h U
    cases hT : d.Ty with
    | none => simp [ValueDecl.hasType, hT] at h
    | some t => simp [ValueDecl.setType, hT]
  · intro d2 h
    cases hT : d.Ty with
    | none =>
        simp [ValueDecl.setType, hT] at h
        simp [ValueDecl.setType, ← h]
    | some t => simp [ValueDecl.setType, hT] at h
  · rfl
  · rfl
  · intro h
    cases hT : d.Ty with
    | none => simp [ValueDecl.hasType, hT] at h
    | some t => exact ⟨t, by simp [ValueDecl.getType, hT]⟩

/-- Witness for C2: a concrete ValueDecl with its type already set, on which
the checked setType fails. -/
theorem valueDecl_setType_contract_witness :
    (mkValueDecl DeclKind.Var 0 0 (some 5)).setType (some 1) =
      Except.error "changing type of declaration" :=
  (valueDecl_setType_contract (mkValueDecl DeclKind.Var 0 0 (some 5)) 1 2).1
    (by rfl) (some 1)

/-- Claim C3: every concrete classof test succeeds exactly on its own kind,
the two range-based category tests agree with the class hierarchy of Decl.h
(a kind passes NamedDecl or ValueDecl classof exactly when its node class
derives that layer), and in particular the Var tag lies in both the Named
and the Valued ranges while failing the ImportDecl concrete test. -/
theorem classof_agrees_with_hierarchy :
    (∀ c k : DeclKind, classofConcrete c k = (k == c)) ∧
    (∀ k : DeclKind, NamedDecl.classofKind k = derivesNamedDecl k) ∧
    (∀ k : DeclKind, ValueDecl.classofKind k = derivesValueDecl k) ∧
    NamedDecl.classofKind DeclKind.Var = true ∧
    ValueDecl.classofKind DeclKind.Var = true ∧
    ImportDecl.classofKind DeclKind.Var = false := by
  decide

/-- Counterexample to claim C4: the Subscript kind is one of the nine
concrete kinds, yet SubscriptDecl derives Decl directly rather than the
Named or Valued layer, and its tag lies outside the named-declarations
range. -/
theorem concreteKind_named_range_cex :
    derivesNamedDecl DeclKind.Subscript = false ∧
    derivesValueDecl DeclKind.Subscript = false ∧
    NamedDecl.classofKind DeclKind.Subscript = false := by
  decide

/-- Claim C4 as amended: exactly four of the nine concrete kinds (TypeAlias,
Var, Func, OneOfElement) extend the Valued (hence Named) layer, and the
named-declarations range test holds for precisely those kinds; the other
five kinds extend the base Decl directly and lie outside the range. -/
theorem named_range_exactly_value_kinds :
    ∀ k : DeclKind,
      NamedDecl.classofKind k = derivesNamedDecl k ∧
      derivesNamedDecl k = derivesValueDecl k ∧
      derivesNamedDecl k =
        (k == DeclKind.TypeAlias || k == DeclKind.Var ||
         k == DeclKind.Func || k == DeclKind.OneOfElement) := by
  decide

/-- Claim C5: creating an ImportDecl with path P and reading getAccessPath
returns exactly P, with the same length, and the path survives the only
post-construction mutator (setDeclContext) unchanged. -/
theorem importDecl_accessPath_roundtrip (C DC DC2 : Nat) (IL : SourceLoc)
    (P : List AccessPathElement) :
    (ImportDecl.create C DC IL P).getAccessPath = P ∧
    (ImportDecl.create C DC IL P).getAccessPath.length = P.length ∧
    ((ImportDecl.create C DC IL P).setDeclContext DC2).getAccessPath = P := by
  refine ⟨?_, ?_, ?_⟩ <;>
    simp [ImportDecl.create, ImportDecl.getAccessPath, ImportDecl.setDeclContext]

/-- Counterexample to claim C6: the ValueDecl-layer constructors store the
type argument as given, so constructing a VarDecl with a non-null type makes
hasType true immediately after construction, before any setType or
overwriteType call. -/
theorem valued_type_unset_at_construction_cex :
    (mkVarDecl ⟨none⟩ 0 (some 0) 0).toValueDecl.hasType = true := rfl

/-- Claim C6 as amended: the ValueDecl layer stores the constructor type
argument as given, so hasType immediately after construction equals the
non-nullness of that argument; in the normal case of a null argument the
type begins unset, for ValueDecl, VarDecl and FuncDecl constructors alike. -/
theorem valued_type_after_construction (K : DeclKind) (DC : DeclContextRef)
    (nm : Identifier) (T : TypeRef) (vl sl fl : SourceLoc)
    (b : Option FuncExprRef) :
    (mkValueDecl K DC nm none).hasType = false ∧
    (mkVarDecl vl nm none DC).toValueDecl.hasType = false ∧
    (mkFuncDecl sl fl nm none b DC).toValueDecl.hasType = false ∧
    (mkValueDecl K DC nm T).hasType = T.isSome := by
  refine ⟨rfl, rfl, rfl, ?_⟩
  cases T <;> rfl

/-- Counterexample to claim C7: nothing prevents the two setBody overloads
from switching the inhabited alternative; after setBody of an expression the
body holds that expression, and a subsequent setBody of a statement replaces
it with the statement alternative. -/
theorem topLevelCode_alternative_switch_cex :
    ((mkTopLevelCodeDecl 0).setBodyExpr 5).getBody = ExprOrStmt.expr 5 ∧
    (((mkTopLevelCodeDecl 0).setBodyExpr 5).setBodyStmt 9).getBody =
      ExprOrStmt.stmt 9 :=
  ⟨rfl, rfl⟩

/-- Claim C7 as amended: the body starts empty, each setBody overload
installs its own alternative (regardless of the previous state, so a later
pass may also switch alternatives), and at any time at most one of the two
alternatives is active. -/
theorem topLevelCode_body_states (P : DeclContextRef) (t : TopLevelCodeDecl)
    (E : ExprRef) (S : StmtRef) :
    (mkTopLevelCodeDecl P).getBody = ExprOrStmt.null ∧
    (t.setBodyExpr E).getBody = ExprOrStmt.expr E ∧
    (t.setBodyStmt S).getBody = ExprOrStmt.stmt S ∧
    (t.getBody.isExpr && t.getBody.isStmt) = false := by
  refine ⟨rfl, rfl, rfl, ?_⟩
  cases h : t.getBody <;> simp [ExprOrStmt.isExpr, ExprOrStmt.isStmt]

/-- Claim C8: a freshly constructed VarDecl has no property record, reporting
isProperty false and both accessors null; after setProperty with getter G
and setter S it reports isProperty true, getGetter G and getSetter S; and no
available operation (modelled by any sequence of VarDecl operations from
Decl.h) ever removes an installed record. -/
theorem varDecl_property_promotion (vl lb rb : SourceLoc) (nm : Identifier)
    (T : TypeRef) (DC Ctx : Nat) (G S : Option FuncDeclRef)
    (v : VarDecl) (ops : List VarOp) :
    (mkVarDecl vl nm T DC).isProperty = false ∧
    (mkVarDecl vl nm T DC).getGetter = none ∧
    (mkVarDecl vl nm T DC).getSetter = none ∧
    (v.setProperty Ctx lb G S rb).isProperty = true ∧
    (v.setProperty Ctx lb G S rb).getGetter = G ∧
    (v.setProperty Ctx lb G S rb).getSetter = S ∧
    ((v.setProperty Ctx lb G S rb).applyOps ops).isProperty = true := by
  refine ⟨rfl, rfl, rfl, rfl, rfl, rfl, ?_⟩
  exact (v.setProperty Ctx lb G S rb).isProperty_applyOps ops rfl

/-- Claim C9: the start location of a FuncDecl is the static-keyword
location when that location is valid, and the func-keyword location
otherwise. -/
theorem funcDecl_getLocStart_static (f : FuncDecl) :
    (f.StaticLoc.isValid = true → f.getLocStart = f.StaticLoc) ∧
    (f.StaticLoc.isValid = false → f.getLocStart = f.FuncLoc) := by
  constructor <;> intro h <;> simp [FuncDecl.getLocStart, h]

/-- Witness for C9: a concrete FuncDecl with a valid static-keyword
location, whose start location is that location. -/
theorem funcDecl_getLocStart_static_witness :
    (mkFuncDecl ⟨some 3⟩ ⟨some 7⟩ 0 none none 0).getLocStart = ⟨some 3⟩ :=
  (funcDecl_getLocStart_static (mkFuncDecl ⟨some 3⟩ ⟨some 7⟩ 0 none none 0)).1 rfl

/-- Claim C10: a freshly constructed FuncDecl leaves its tagged pointer
default-constructed (null pointer, false bit), so both getGetterDecl and
getSetterDecl return null before any makeGetter or makeSetter call. -/
theorem funcDecl_fresh_no_roles (sl fl : SourceLoc) (nm : Identifier)
    (T : TypeRef) (B : Option FuncExprRef) (DC : DeclContextRef) :
    (mkFuncDecl sl fl nm T B DC).getGetterDecl = none ∧
    (mkFuncDecl sl fl nm T B DC).getSetterDecl = none :=
  ⟨rfl, rfl⟩

end SwiftDecl
